import Mathlib

/-!
# Verification of the SAPS simulation engine

A shallow embedding of the simulation engine of the SAPS repository
(`src/utils/PolicyModels.ts` and `src/data/RegionalMatrix.ts`): the policy
effect model `applyPolicyEffects`, the aggregate spillover propagator
(`simulateRegionalEffects` / `calculateTradeSpillovers`), the regional event
generator `generateRegionalEvents`, the trade matrix updater
`updateTradeMatrix` and the scoring function `calculateScore`.

JavaScript numbers are modelled as exact rationals (`ℚ`); the engine only
performs field arithmetic, comparisons, `Math.min` / `Math.max` on them.
The JavaScript `x || d` default pattern is modelled by `orQ` / `levValue`
(`0` is falsy in JavaScript, so a zero value falls back to the default like a
missing one).  `Math.random()` draws are passed in explicitly as parameters,
and the array shuffle is passed in as a function parameter.  Presentation-only
string fields (`description`, `name`, display `sector`) are not modelled;
every field whose value flows into state updates, selection or scoring is.
-/

/-- One policy decision: `{id, value, min, max}` from `GameTypes`.  `min` and
`max` are carried but never read by the engine. -/
structure PolicyDecision where
  id : String
  value : ℚ
  dmin : ℚ
  dmax : ℚ
deriving DecidableEq, Repr

/-- The `policyType` enum of a `PolicySpillover`. -/
inductive PolicyType where
  | trade_gdp
  | infrastructure
  | environment
  | manufacturing
  | technology
  | energy
deriving DecidableEq, Repr

/-- The `magnitude` bucket of a spillover. -/
inductive Magnitude where
  | low
  | medium
  | high
deriving DecidableEq, Repr

/-- The `timeframe` of a spillover. -/
inductive Timeframe where
  | immediate
  | short_term
  | medium_term
  | long_term
deriving DecidableEq, Repr

/-- A cross-country policy spillover (`PolicySpillover` in `GameTypes`),
without its presentation-only `description` string. -/
structure PolicySpillover where
  sourceCountry : String
  targetCountry : String
  policyType : PolicyType
  effect : ℚ
  magnitude : Magnitude
  timeframe : Timeframe
deriving DecidableEq, Repr

/-- One directed trade edge (`TradeRelationship` in `GameTypes`). -/
structure TradeRelationship where
  tfrom : String
  tto : String
  tradeVolume : ℚ
  tariffRate : ℚ
  cooperation : ℚ
deriving DecidableEq, Repr

/-- The per-country state record (`CountryStats` in `GameTypes`): outcome
indicators, policy-memory fields, structural GDP shares and derived KPIs.
All numeric fields of the source record are present. -/
structure CountryStats where
  country : String
  year : ℚ
  gdp_growth : ℚ
  unemployment : ℚ
  literacy_rate : ℚ
  life_expectancy : ℚ
  poverty_rate : ℚ
  co2_emissions : ℚ
  population : ℚ
  infant_mortality : ℚ
  education_spending : ℚ
  health_expenditure : ℚ
  infrastructure_investment : ℚ
  agriculture_spending : ℚ
  manufacturing_spending : ℚ
  services_spending : ℚ
  energy_spending : ℚ
  technology_spending : ℚ
  tourism_spending : ℚ
  environment_spending : ℚ
  trade_liberalization : ℚ
  tariff_rate : ℚ
  agriculture_gdp_percent : ℚ
  manufacturing_gdp_percent : ℚ
  services_gdp_percent : ℚ
  tariffRevenue : ℚ
  consumerWelfare : ℚ

/-- JavaScript `x || d` for numbers: `0` is falsy and falls back to `d`. -/
def orQ (x d : ℚ) : ℚ := if x = 0 then d else x

/-- `decisions.find(d => d.id === id)?.value || dflt`: the first decision with
the given id, with a JavaScript-falsy (`0` or missing) value replaced by the
per-lever default. -/
def levValue (decisions : List PolicyDecision) (id : String) (dflt : ℚ) : ℚ :=
  match decisions.find? (fun d => d.id == id) with
  | some d => if d.value = 0 then dflt else d.value
  | none => dflt

/-- `decisions.find(d => d.id === 'tariffs')?.value || 15` -/
def tariffPolicy (decisions : List PolicyDecision) : ℚ := levValue decisions "tariffs" 15

/-- `decisions.find(d => d.id === 'ntbs')?.value || 60` -/
def ntbPolicy (decisions : List PolicyDecision) : ℚ := levValue decisions "ntbs" 60

/-- `decisions.find(d => d.id === 'connectivity')?.value || 5.0` -/
def connectivityPolicy (decisions : List PolicyDecision) : ℚ := levValue decisions "connectivity" 5

/-- `decisions.find(d => d.id === 'trust')?.value || 50` -/
def trustPolicy (decisions : List PolicyDecision) : ℚ := levValue decisions "trust" 50

/-- `decisions.find(d => d.id === 'agriculture')?.value || 3.5` -/
def agricultureSpending (decisions : List PolicyDecision) : ℚ := levValue decisions "agriculture" 3.5

/-- `decisions.find(d => d.id === 'manufacturing')?.value || 2.0` -/
def manufacturingSpending (decisions : List PolicyDecision) : ℚ := levValue decisions "manufacturing" 2

/-- `decisions.find(d => d.id === 'services')?.value || 1.5` -/
def servicesSpending (decisions : List PolicyDecision) : ℚ := levValue decisions "services" 1.5

/-- `decisions.find(d => d.id === 'energy')?.value || 4.0` -/
def energySpending (decisions : List PolicyDecision) : ℚ := levValue decisions "energy" 4

/-- `decisions.find(d => d.id === 'technology')?.value || 1.0` -/
def technologySpending (decisions : List PolicyDecision) : ℚ := levValue decisions "technology" 1

/-- The `spilloverEffects.forEach(...)` switch of `applyPolicyEffects`: route
one inbound spillover's effect onto the state via the per-`policyType`
table. -/
def applySpilloverEffect (s : CountryStats) (sp : PolicySpillover) : CountryStats :=
  match sp.policyType with
  | PolicyType.trade_gdp =>
      { s with gdp_growth := s.gdp_growth + sp.effect }
  | PolicyType.infrastructure =>
      { s with infrastructure_investment := s.infrastructure_investment + sp.effect,
               gdp_growth := s.gdp_growth + sp.effect * 0.1 }
  | PolicyType.environment =>
      { s with co2_emissions := s.co2_emissions + sp.effect }
  | PolicyType.manufacturing =>
      { s with gdp_growth := s.gdp_growth + sp.effect * 0.1,
               unemployment := s.unemployment - sp.effect * 0.05 }
  | PolicyType.technology =>
      { s with gdp_growth := s.gdp_growth + sp.effect * 0.15,
               literacy_rate := s.literacy_rate + sp.effect * 0.3 }
  | PolicyType.energy =>
      { s with gdp_growth := s.gdp_growth + sp.effect * 0.08 }

/-- One step of the `Object.keys(eventEffects).forEach(...)` loop: add `v` to
the numeric field named `key` if such a field exists, otherwise ignore the
key (defensive no-op, as in the source). -/
def applyEventEffect (s : CountryStats) (key : String) (v : ℚ) : CountryStats :=
  if key = "year" then { s with year := s.year + v } else
  if key = "gdp_growth" then { s with gdp_growth := s.gdp_growth + v } else
  if key = "unemployment" then { s with unemployment := s.unemployment + v } else
  if key = "literacy_rate" then { s with literacy_rate := s.literacy_rate + v } else
  if key = "life_expectancy" then { s with life_expectancy := s.life_expectancy + v } else
  if key = "poverty_rate" then { s with poverty_rate := s.poverty_rate + v } else
  if key = "co2_emissions" then { s with co2_emissions := s.co2_emissions + v } else
  if key = "population" then { s with population := s.population + v } else
  if key = "infant_mortality" then { s with infant_mortality := s.infant_mortality + v } else
  if key = "education_spending" then { s with education_spending := s.education_spending + v } else
  if key = "health_expenditure" then { s with health_expenditure := s.health_expenditure + v } else
  if key = "infrastructure_investment" then { s with infrastructure_investment := s.infrastructure_investment + v } else
  if key = "agriculture_spending" then { s with agriculture_spending := s.agriculture_spending + v } else
  if key = "manufacturing_spending" then { s with manufacturing_spending := s.manufacturing_spending + v } else
  if key = "services_spending" then { s with services_spending := s.services_spending + v } else
  if key = "energy_spending" then { s with energy_spending := s.energy_spending + v } else
  if key = "technology_spending" then { s with technology_spending := s.technology_spending + v } else
  if key = "tourism_spending" then { s with tourism_spending := s.tourism_spending + v } else
  if key = "environment_spending" then { s with environment_spending := s.environment_spending + v } else
  if key = "trade_liberalization" then { s with trade_liberalization := s.trade_liberalization + v } else
  if key = "tariff_rate" then { s with tariff_rate := s.tariff_rate + v } else
  if key = "agriculture_gdp_percent" then { s with agriculture_gdp_percent := s.agriculture_gdp_percent + v } else
  if key = "manufacturing_gdp_percent" then { s with manufacturing_gdp_percent := s.manufacturing_gdp_percent + v } else
  if key = "services_gdp_percent" then { s with services_gdp_percent := s.services_gdp_percent + v } else
  if key = "tariffRevenue" then { s with tariffRevenue := s.tariffRevenue + v } else
  if key = "consumerWelfare" then { s with consumerWelfare := s.consumerWelfare + v } else
  s

/-- The policy-driven part of `applyPolicyEffects`: every lever's delta
against the previously persisted value (or its default), the
baseline-relative trade/NTB/cooperation effects and the KPI computation —
the state just before the spillover loop of the source. -/
def applyPolicyDeltas (currentStats : CountryStats) (decisions : List PolicyDecision) :
    CountryStats :=
  let educationChange := orQ currentStats.education_spending 4.0 - 4.0
  let s := { currentStats with
    literacy_rate := currentStats.literacy_rate + educationChange * 0.25,
    gdp_growth := currentStats.gdp_growth + educationChange * 0.03 }
  let healthChange := orQ currentStats.health_expenditure 3.0 - 3.0
  let s := { s with
    life_expectancy := s.life_expectancy + healthChange * 0.08,
    infant_mortality := s.infant_mortality - healthChange * 0.3,
    gdp_growth := s.gdp_growth + healthChange * 0.02 }
  let infraChange := connectivityPolicy decisions - orQ currentStats.infrastructure_investment 5.0
  let s := { s with
    gdp_growth := s.gdp_growth + infraChange * 0.05,
    unemployment := s.unemployment - infraChange * 0.1,
    poverty_rate := s.poverty_rate - infraChange * 0.15,
    infrastructure_investment := connectivityPolicy decisions }
  let agricultureChange := agricultureSpending decisions - orQ currentStats.agriculture_spending 3.5
  let agriGdpShare := orQ currentStats.agriculture_gdp_percent 15.0 / 100
  let s := { s with
    gdp_growth := s.gdp_growth + agricultureChange * 0.2 * agriGdpShare,
    poverty_rate := s.poverty_rate - agricultureChange * 0.5 * agriGdpShare }
  let manufacturingChange := manufacturingSpending decisions - orQ currentStats.manufacturing_spending 2.0
  let manuGdpShare := orQ currentStats.manufacturing_gdp_percent 20.0 / 100
  let s := { s with
    gdp_growth := s.gdp_growth + manufacturingChange * 0.3 * manuGdpShare,
    unemployment := s.unemployment - manufacturingChange * 0.4 * manuGdpShare }
  let servicesChange := servicesSpending decisions - orQ currentStats.services_spending 1.5
  let servGdpShare := orQ currentStats.services_gdp_percent 50.0 / 100
  let s := { s with
    gdp_growth := s.gdp_growth + servicesChange * 0.2 * servGdpShare,
    unemployment := s.unemployment - servicesChange * 0.25 * servGdpShare }
  let energyChange := energySpending decisions - orQ currentStats.energy_spending 4.0
  let s := { s with
    gdp_growth := s.gdp_growth + energyChange * 0.1,
    co2_emissions := s.co2_emissions + energyChange * 0.05 }
  let technologyChange := technologySpending decisions - orQ currentStats.technology_spending 1.0
  let s := { s with
    gdp_growth := s.gdp_growth + technologyChange * 0.1,
    literacy_rate := s.literacy_rate + technologyChange * 0.1 }
  let tariffEffect := (tariffPolicy decisions - orQ currentStats.tariff_rate 15) / 100
  let s := { s with
    gdp_growth := s.gdp_growth - tariffEffect * 0.12,
    unemployment := s.unemployment + tariffEffect * 0.09,
    poverty_rate := s.poverty_rate + tariffEffect * 0.18 }
  let ntbEffect := (ntbPolicy decisions - 60) / 100
  let s := { s with gdp_growth := s.gdp_growth - ntbEffect * 0.08 }
  let cooperationEffect := (trustPolicy decisions - 50) / 100
  let s := { s with
    gdp_growth := s.gdp_growth + cooperationEffect * 0.06,
    infrastructure_investment := s.infrastructure_investment + cooperationEffect * 0.3 }
  let tradeVolumeProxy := 100 - (tariffPolicy decisions * 0.5) - (ntbPolicy decisions * 0.3)
    + (connectivityPolicy decisions * 2) + (trustPolicy decisions * 0.2)
  { s with tariffRevenue := (tariffPolicy decisions / 100) * (tradeVolumeProxy * 0.5) }

/-- `applyPolicyEffects` up to (and including) the event-effects loop: the
policy-driven deltas, then the spillover routing, then the event deltas,
i.e. the state at the pre-jitter, pre-clamp point of the source. -/
def applyPreJitter (currentStats : CountryStats) (decisions : List PolicyDecision)
    (spilloverEffects : List PolicySpillover) (eventEffects : List (String × ℚ)) :
    CountryStats :=
  let s := applyPolicyDeltas currentStats decisions
  let s := spilloverEffects.foldl applySpilloverEffect s
  eventEffects.foldl (fun st kv => applyEventEffect st kv.1 kv.2) s

/-- The `// Apply bounds` block: clamp every bounded field to its interval. -/
def clampStats (s : CountryStats) : CountryStats :=
  { s with
    literacy_rate := max 0 (min 100 s.literacy_rate),
    unemployment := max 0.5 (min 50 s.unemployment),
    poverty_rate := max 0 (min 90 s.poverty_rate),
    life_expectancy := max 45 (min 90 s.life_expectancy),
    gdp_growth := max (-10) (min 15 s.gdp_growth),
    co2_emissions := max 0 s.co2_emissions,
    infant_mortality := max 1 (min 150 s.infant_mortality),
    population := max 100000 s.population }

/-- The final persistence block: write the realized lever values into the
policy-memory fields (NTBs, connectivity and trust are deliberately not
persisted by the source). -/
def persistDecisions (s : CountryStats) (decisions : List PolicyDecision) : CountryStats :=
  { s with
    agriculture_spending := agricultureSpending decisions,
    manufacturing_spending := manufacturingSpending decisions,
    services_spending := servicesSpending decisions,
    energy_spending := energySpending decisions,
    technology_spending := technologySpending decisions,
    tariff_rate := tariffPolicy decisions }

/-- `PolicySimulator.applyPolicyEffects` of `src/utils/PolicyModels.ts`.
`u` is the `Math.random()` draw used for the gdp jitter
(`randomVariation = (u - 0.5) * 0.5`). -/
def applyPolicyEffects (currentStats : CountryStats) (decisions : List PolicyDecision)
    (spilloverEffects : List PolicySpillover) (eventEffects : List (String × ℚ))
    (u : ℚ) : CountryStats :=
  let s := applyPreJitter currentStats decisions spilloverEffects eventEffects
  let randomVariation := (u - 0.5) * 0.5
  let s := { s with gdp_growth := s.gdp_growth + randomVariation }
  persistDecisions (clampStats s) decisions

/-- `PolicySimulator.calculateScore`: seven weighted deltas, base 400,
balance bonus, extreme penalty, clamped to [0, 1000]. -/
def calculateScore (finalStats initialStats : CountryStats) : ℚ :=
  let improvements : List ℚ :=
    [ (finalStats.gdp_growth - initialStats.gdp_growth) * 15,
      (finalStats.literacy_rate - initialStats.literacy_rate) * 3,
      (finalStats.life_expectancy - initialStats.life_expectancy) * 8,
      (initialStats.unemployment - finalStats.unemployment) * 5,
      (initialStats.poverty_rate - finalStats.poverty_rate) * 4,
      (initialStats.co2_emissions - finalStats.co2_emissions) * 15,
      (initialStats.infant_mortality - finalStats.infant_mortality) * 2 ]
  let totalScore := improvements.foldl (· + ·) 0
  let balanceBonus : ℚ := if improvements.all (fun val => decide (val > -50)) then 100 else 0
  let extremePenalty : ℚ := if improvements.any (fun val => decide (val < -100)) then -200 else 0
  max 0 (min 1000 (totalScore + 400 + balanceBonus + extremePenalty))

/-- Look up a key of the dynamic `policyChanges` object.  The object is
modelled as an association list in which later writes are prepended, so the
first hit is the last write, as in JavaScript. -/
def lookupChange (policyChanges : List (String × ℚ)) (key : String) : Option ℚ :=
  (policyChanges.find? (fun p => p.1 == key)).map (·.2)

/-- JavaScript truthiness of an optional numeric property: present and
nonzero. -/
def truthyOpt (o : Option ℚ) : Bool :=
  match o with
  | some v => v != 0
  | none => false

/-- `RegionalEconomySimulator.hasEnergyTrade`: the fixed whitelist of
energy-trading country pairs, tested in both orientations. -/
def energyTradePairs : List (String × String) :=
  [("India", "Bhutan"), ("India", "Nepal"), ("Pakistan", "Afghanistan"), ("India", "Bangladesh")]

/-- `hasEnergyTrade(country1, country2)` from `RegionalMatrix.ts`. -/
def hasEnergyTrade (country1 country2 : String) : Bool :=
  energyTradePairs.any (fun pair =>
    (pair.1 == country1 && pair.2 == country2) || (pair.1 == country2 && pair.2 == country1))

/-- The body of the `tradingPartners.forEach(...)` loop of
`calculateTradeSpillovers`: the spillovers pushed for one trade edge, in
source order (gdp, infrastructure, environment, manufacturing, technology,
energy). -/
def spilloversForEdge (sourceCountry : String) (policyChanges : List (String × ℚ))
    (trade : TradeRelationship) : List PolicySpillover :=
  let targetCountry := if trade.tfrom = sourceCountry then trade.tto else trade.tfrom
  let tradeIntensity := trade.tradeVolume / 100
  let cooperationFactor := trade.cooperation / 100
  (match lookupChange policyChanges "gdp_growth" with
   | some change =>
      if change = 0 then [] else
      let spilloverEffect := change * tradeIntensity * cooperationFactor * 0.25
      [{ sourceCountry := sourceCountry, targetCountry := targetCountry,
         policyType := PolicyType.trade_gdp, effect := spilloverEffect,
         magnitude := if spilloverEffect > 0.1 then Magnitude.high
           else if spilloverEffect > 0.05 then Magnitude.medium else Magnitude.low,
         timeframe := Timeframe.short_term }]
   | none => []) ++
  (match lookupChange policyChanges "infrastructure_investment" with
   | some change =>
      if change = 0 then [] else
      let infraSpillover := (change - 5) * tradeIntensity * 0.12
      [{ sourceCountry := sourceCountry, targetCountry := targetCountry,
         policyType := PolicyType.infrastructure, effect := infraSpillover,
         magnitude := if |infraSpillover| > 0.08 then Magnitude.high
           else if |infraSpillover| > 0.04 then Magnitude.medium else Magnitude.low,
         timeframe := Timeframe.medium_term }]
   | none => []) ++
  (match lookupChange policyChanges "co2_emissions" with
   | some change =>
      if change = 0 then [] else
      let envSpillover := change * 0.08
      [{ sourceCountry := sourceCountry, targetCountry := targetCountry,
         policyType := PolicyType.environment, effect := envSpillover,
         magnitude := if |envSpillover| > 0.05 then Magnitude.high
           else if |envSpillover| > 0.02 then Magnitude.medium else Magnitude.low,
         timeframe := Timeframe.long_term }]
   | none => []) ++
  (match lookupChange policyChanges "manufacturing_investment" with
   | some change =>
      if change = 0 then [] else
      let manufacturingSpillover := change * tradeIntensity * 0.1
      [{ sourceCountry := sourceCountry, targetCountry := targetCountry,
         policyType := PolicyType.manufacturing, effect := manufacturingSpillover,
         magnitude := if |manufacturingSpillover| > 0.06 then Magnitude.high
           else if |manufacturingSpillover| > 0.03 then Magnitude.medium else Magnitude.low,
         timeframe := Timeframe.medium_term }]
   | none => []) ++
  (match lookupChange policyChanges "technology_investment" with
   | some change =>
      if change = 0 then [] else
      let techSpillover := change * cooperationFactor * 0.15
      [{ sourceCountry := sourceCountry, targetCountry := targetCountry,
         policyType := PolicyType.technology, effect := techSpillover,
         magnitude := if |techSpillover| > 0.08 then Magnitude.high
           else if |techSpillover| > 0.04 then Magnitude.medium else Magnitude.low,
         timeframe := Timeframe.long_term }]
   | none => []) ++
  (match lookupChange policyChanges "energy_investment" with
   | some change =>
      if change = 0 then [] else
      if hasEnergyTrade sourceCountry targetCountry then
        let energySpillover := change * 0.2
        [{ sourceCountry := sourceCountry, targetCountry := targetCountry,
           policyType := PolicyType.energy, effect := energySpillover,
           magnitude := if |energySpillover| > 0.1 then Magnitude.high
             else if |energySpillover| > 0.05 then Magnitude.medium else Magnitude.low,
           timeframe := Timeframe.immediate }]
      else []
   | none => [])

/-- `RegionalEconomySimulator.calculateTradeSpillovers`: for every trade edge
touching the source country (either direction), push the recognized
spillovers. -/
def calculateTradeSpillovers (sourceCountry : String) (policyChanges : List (String × ℚ))
    (tradeMatrix : List TradeRelationship) : List PolicySpillover :=
  let tradingPartners := tradeMatrix.filter (fun t =>
    t.tfrom == sourceCountry || t.tto == sourceCountry)
  tradingPartners.foldl (fun spillovers trade =>
    spillovers ++ spilloversForEdge sourceCountry policyChanges trade) []

/-- The decision ids recognized by the `switch (decision.id)` of
`simulateRegionalEffects`; each writes the same-named key of
`policyChanges`. -/
def policyChangeIds : List String :=
  ["education", "health", "infrastructure", "environment", "agriculture", "manufacturing",
   "services", "energy", "technology", "tourism", "trade", "tariff", "cooperation"]

/-- The `decisions.forEach(...)` switch of `simulateRegionalEffects`: build
the `policyChanges` object (later writes prepended, see `lookupChange`). -/
def extractPolicyChanges (decisions : List PolicyDecision) : List (String × ℚ) :=
  decisions.foldl (fun policyChanges d =>
    if d.id ∈ policyChangeIds then (d.id, d.value) :: policyChanges else policyChanges) []

/-- `allDecisions[sourceCountry] || []`. -/
def decisionsFor (allDecisions : List (String × List PolicyDecision)) (country : String) :
    List PolicyDecision :=
  ((allDecisions.find? (fun p => p.1 == country)).map (·.2)).getD []

/-- Append one spillover to its target country's bucket of the result map
(`spilloversByCountry`), creating the bucket if absent. -/
def pushSpillover (spilloversByCountry : List (String × List PolicySpillover))
    (sp : PolicySpillover) : List (String × List PolicySpillover) :=
  match spilloversByCountry with
  | [] => [(sp.targetCountry, [sp])]
  | (k, l) :: rest =>
      if k == sp.targetCountry then (k, l ++ [sp]) :: rest
      else (k, l) :: pushSpillover rest sp

/-- `PolicySimulator.simulateRegionalEffects`: per source country, extract the
policy changes from its decisions, compute its outbound trade spillovers and
group them by target country. -/
def simulateRegionalEffects (allCountries : List (String × CountryStats))
    (allDecisions : List (String × List PolicyDecision))
    (tradeMatrix : List TradeRelationship) : List (String × List PolicySpillover) :=
  allCountries.foldl (fun spilloversByCountry entry =>
    let decisions := decisionsFor allDecisions entry.1
    let policyChanges := extractPolicyChanges decisions
    let spillovers := calculateTradeSpillovers entry.1 policyChanges tradeMatrix
    spillovers.foldl pushSpillover spilloversByCountry) []

/-- The per-country entry of the `policyChanges` argument of
`updateTradeMatrix`, modelled by the three properties the function reads;
`none` is an absent property. -/
structure CountryPolicyChanges where
  trade_openness : Option ℚ
  infrastructure_investment : Option ℚ
  cooperation_policy : Option ℚ
deriving DecidableEq, Repr

/-- `policyChanges[trade.from] || {}`. -/
def changesFor (policyChanges : List (String × CountryPolicyChanges)) (country : String) :
    CountryPolicyChanges :=
  ((policyChanges.find? (fun p => p.1 == country)).map (·.2)).getD ⟨none, none, none⟩

/-- `RegionalEconomySimulator.updateTradeMatrix`: mutate every trade edge by
the source and target countries' policy changes, then clamp tariff to [0,50],
volume below by 0 and cooperation (only on update) to [0,100]. -/
def updateTradeMatrix (currentMatrix : List TradeRelationship)
    (policyChanges : List (String × CountryPolicyChanges)) : List TradeRelationship :=
  currentMatrix.map (fun trade =>
    let sourceChanges := changesFor policyChanges trade.tfrom
    let targetChanges := changesFor policyChanges trade.tto
    let newTradeVolume := trade.tradeVolume
    let newTariffRate := trade.tariffRate
    let newCooperation := trade.cooperation
    let vt :=
      if truthyOpt sourceChanges.trade_openness then
        let openness := sourceChanges.trade_openness.getD 0 / 100
        (newTradeVolume * (1 + openness * 0.1), newTariffRate * (1 - openness * 0.2))
      else (newTradeVolume, newTariffRate)
    let newTradeVolume := vt.1
    let newTariffRate := vt.2
    let newTradeVolume :=
      if truthyOpt sourceChanges.infrastructure_investment
          || truthyOpt targetChanges.infrastructure_investment then
        let avgInfra := (sourceChanges.infrastructure_investment.getD 0
          + targetChanges.infrastructure_investment.getD 0) / 2
        newTradeVolume * (1 + (avgInfra - 5) * 0.02)
      else newTradeVolume
    let newCooperation :=
      if truthyOpt sourceChanges.cooperation_policy then
        max 0 (min 100 (newCooperation + sourceChanges.cooperation_policy.getD 0))
      else newCooperation
    { trade with
      tradeVolume := max 0 newTradeVolume,
      tariffRate := max 0 (min 50 newTariffRate),
      cooperation := newCooperation })

/-- A regional event as returned by the generator: `{id, year, effects,
targetCountries}` (the presentation-only `name` and `description` strings are
not modelled). -/
structure RegionalEvent where
  id : String
  year : ℤ
  effects : List (String × ℚ)
  targetCountries : List String
deriving DecidableEq, Repr

/-- One entry of the fixed `eventPool` catalog of `generateRegionalEvents`.
An absent `region_wide` / `unique` flag is `false`; `targets` is empty for
region-wide events (the source leaves the property absent and never reads
it for them). -/
structure PoolEvent where
  id : String
  probability : ℚ
  region_wide : Bool
  targets : List String
  effects : List (String × ℚ)
  unique : Bool
deriving DecidableEq, Repr

/-- The country roster (`SOUTH_ASIAN_COUNTRIES.map(c => c.name)`), used as
the target list of region-wide events. -/
def SOUTH_ASIAN_COUNTRIES : List String :=
  ["India", "Pakistan", "Bangladesh", "Sri Lanka", "Nepal", "Bhutan", "Maldives", "Afghanistan"]

/-- The fixed event catalog of `generateRegionalEvents`, in declaration
order, with the source's ids, base probabilities, targeting, effects maps
and uniqueness flags. -/
def eventPool : List PoolEvent :=
  [ { id := "monsoon_floods", probability := 0.08, region_wide := false,
      targets := ["Bangladesh", "India", "Pakistan"],
      effects := [("gdp_growth", -0.6), ("poverty_rate", 1.5), ("infrastructure_investment", -1.0)],
      unique := false },
    { id := "cyclone_bay_of_bengal", probability := 0.06, region_wide := false,
      targets := ["Bangladesh", "India", "Sri Lanka"],
      effects := [("gdp_growth", -0.8), ("population", -0.005), ("infrastructure_investment", -1.5)],
      unique := false },
    { id := "drought", probability := 0.05, region_wide := false,
      targets := ["Pakistan", "India", "Afghanistan"],
      effects := [("gdp_growth", -0.5), ("agriculture_gdp_percent", -1.0), ("poverty_rate", 1.2)],
      unique := false },
    { id := "global_recession", probability := 0.07, region_wide := true, targets := [],
      effects := [("gdp_growth", -1.0), ("unemployment", 1.5)], unique := false },
    { id := "oil_price_shock", probability := 0.08, region_wide := true, targets := [],
      effects := [("gdp_growth", -0.4), ("co2_emissions", -0.1)], unique := false },
    { id := "fdi_boom", probability := 0.05, region_wide := false,
      targets := ["India", "Bangladesh"],
      effects := [("gdp_growth", 0.8), ("unemployment", -0.5), ("technology_spending", 0.5)],
      unique := true },
    { id := "regional_cooperation_summit", probability := 0.15, region_wide := true, targets := [],
      effects := [("trust", 10), ("connectivity", 0.5)], unique := false },
    { id := "border_tensions", probability := 0.08, region_wide := false,
      targets := ["India", "Pakistan"],
      effects := [("trust", -15), ("gdp_growth", -0.3)], unique := false },
    { id := "health_breakthrough", probability := 0.04, region_wide := false,
      targets := ["India", "Bangladesh", "Sri Lanka"],
      effects := [("life_expectancy", 0.5), ("health_expenditure", 0.2)], unique := true },
    { id := "himalayan_earthquake", probability := 0.03, region_wide := false,
      targets := ["Nepal", "Bhutan", "India"],
      effects := [("gdp_growth", -1.2), ("infrastructure_investment", -2.5), ("poverty_rate", 2.0)],
      unique := true } ]

/-- The effective probability of one event: the base probability, scaled by
the cooperation index for the two special ids. -/
def effectiveProbability (cooperationIndex : ℚ) (e : PoolEvent) : ℚ :=
  let p := e.probability
  let p := if e.id = "regional_cooperation_summit" then p * (cooperationIndex / 50) else p
  if e.id = "border_tensions" then p * ((100 - cooperationIndex) / 50) else p

/-- The `for (const event of potentialEvents)` loop: walk the (shuffled)
candidate list, drawing once per event (`draws n` is the n-th
`Math.random()` call), and return the first event whose draw succeeds. -/
def selectFirstTriggered (cooperationIndex : ℚ) :
    List PoolEvent → (ℕ → ℚ) → Option PoolEvent
  | [], _ => none
  | e :: rest, draws =>
      if draws 0 < effectiveProbability cooperationIndex e then some e
      else selectFirstTriggered cooperationIndex rest (fun n => draws (n + 1))

/-- `RegionalEconomySimulator.generateRegionalEvents`.  Randomness is passed
in explicitly: `gateDraw` is the gate's `Math.random()` draw, `shuffle`
stands for the random `sort` of the candidate list and `draws` are the
per-event trigger draws. -/
def generateRegionalEvents (year : ℤ) (cooperationIndex : ℚ) (history : List RegionalEvent)
    (gateDraw : ℚ) (shuffle : List PoolEvent → List PoolEvent) (draws : ℕ → ℚ) :
    List RegionalEvent :=
  if gateDraw > 0.6 then [] else
  let occurredEventIds := history.map (·.id)
  let potentialEvents := eventPool.filter (fun e => !(e.unique && occurredEventIds.contains e.id))
  match selectFirstTriggered cooperationIndex (shuffle potentialEvents) draws with
  | some e =>
      [{ id := e.id, year := year, effects := e.effects,
         targetCountries := if e.region_wide then SOUTH_ASIAN_COUNTRIES else e.targets }]
  | none =>
      if year % 3 = 0 then
        [{ id := "no_major_event", year := year, effects := [("gdp_growth", 0.1)],
           targetCountries := SOUTH_ASIAN_COUNTRIES }]
      else []

/-- The set of gate draws on which `generateRegionalEvents` returns `[]`
immediately (`Math.random() > 0.6`), inside the unit interval that
`Math.random()` ranges over. -/
def gateEmptyDraws : Set ℝ := {r : ℝ | r ∈ Set.Ico (0 : ℝ) 1 ∧ 0.6 < r}

/-- A representative concrete country state (all fields at plausible values),
used to instantiate counterexamples and witnesses. -/
def sampleStats : CountryStats :=
  { country := "India", year := 2023, gdp_growth := 3.5, unemployment := 5,
    literacy_rate := 70, life_expectancy := 65, poverty_rate := 20,
    co2_emissions := 2, population := 50000000, infant_mortality := 30,
    education_spending := 4, health_expenditure := 3, infrastructure_investment := 5,
    agriculture_spending := 3.5, manufacturing_spending := 2, services_spending := 1.5,
    energy_spending := 4, technology_spending := 1, tourism_spending := 2,
    environment_spending := 2, trade_liberalization := 50, tariff_rate := 15,
    agriculture_gdp_percent := 15, manufacturing_gdp_percent := 20,
    services_gdp_percent := 50, tariffRevenue := 0, consumerWelfare := 0 }

/-- C1: for every input (state, decisions, spillovers, event effects, random
draw), every bounded outcome field of the state returned by
`applyPolicyEffects` lies in its documented closed interval. -/
theorem applyPolicyEffects_bounded (c : CountryStats) (ds : List PolicyDecision)
    (sps : List PolicySpillover) (evs : List (String × ℚ)) (u : ℚ) :
    let r := applyPolicyEffects c ds sps evs u
    (-10 ≤ r.gdp_growth ∧ r.gdp_growth ≤ 15) ∧
    (0.5 ≤ r.unemployment ∧ r.unemployment ≤ 50) ∧
    (0 ≤ r.literacy_rate ∧ r.literacy_rate ≤ 100) ∧
    (45 ≤ r.life_expectancy ∧ r.life_expectancy ≤ 90) ∧
    (0 ≤ r.poverty_rate ∧ r.poverty_rate ≤ 90) ∧
    0 ≤ r.co2_emissions ∧
    (1 ≤ r.infant_mortality ∧ r.infant_mortality ≤ 150) ∧
    100000 ≤ r.population := by
  simp only [applyPolicyEffects, persistDecisions, clampStats]
  refine ⟨⟨le_max_left _ _, max_le (by norm_num) (min_le_left _ _)⟩,
    ⟨le_max_left _ _, max_le (by norm_num) (min_le_left _ _)⟩,
    ⟨le_max_left _ _, max_le (by norm_num) (min_le_left _ _)⟩,
    ⟨le_max_left _ _, max_le (by norm_num) (min_le_left _ _)⟩,
    ⟨le_max_left _ _, max_le (by norm_num) (min_le_left _ _)⟩,
    le_max_left _ _,
    ⟨le_max_left _ _, max_le (by norm_num) (min_le_left _ _)⟩,
    le_max_left _ _⟩

/-- C5: `calculateScore` is total over any pair of states, always lands in
[0, 1000], and on identical final/initial states evaluates to exactly 500
(base 400 plus the balance bonus of 100, no extreme penalty). -/
theorem calculateScore_bounds_and_identity (f i : CountryStats) :
    (0 ≤ calculateScore f i ∧ calculateScore f i ≤ 1000) ∧
    calculateScore f f = 500 := by
  refine ⟨⟨?_, ?_⟩, ?_⟩
  · simp only [calculateScore]
    exact le_max_left _ _
  · simp only [calculateScore]
    exact max_le (by norm_num) (min_le_left _ _)
  · simp [calculateScore]
    norm_num

/-- Helper: a single zero-valued decision produces the same lever value as an
empty decision list, for every lever id and default. -/
theorem levValue_single_zero (id k : String) (lo hi dflt : ℚ) :
    levValue [⟨id, 0, lo, hi⟩] k dflt = levValue [] k dflt := by
  by_cases h : id = k
  · simp [levValue, List.find?, h]
  · have hbe : (id == k) = false := beq_eq_false_iff_ne.mpr h
    simp [levValue, List.find?, hbe]

/-- Helper: `applyPolicyEffects` only consumes its decision list through
`levValue`, so decision lists with identical lever values give identical
results. -/
theorem applyPolicyEffects_congr (c : CountryStats) (sps : List PolicySpillover)
    (evs : List (String × ℚ)) (u : ℚ) {ds₁ ds₂ : List PolicyDecision}
    (hlev : ∀ k dflt, levValue ds₁ k dflt = levValue ds₂ k dflt) :
    applyPolicyEffects c ds₁ sps evs u = applyPolicyEffects c ds₂ sps evs u := by
  simp only [applyPolicyEffects, applyPreJitter, applyPolicyDeltas, persistDecisions,
    tariffPolicy, ntbPolicy, connectivityPolicy, trustPolicy, agricultureSpending,
    manufacturingSpending, servicesSpending, energySpending, technologySpending, hlev]

/-- C10: at the interface of `applyPolicyEffects`, a decision with value
exactly 0 is indistinguishable from a missing decision — for each of the nine
levers, the whole output coincides with the run without the decision, and the
zero value is replaced by the per-lever default. -/
theorem zero_decision_uses_default (c : CountryStats) (sps : List PolicySpillover)
    (evs : List (String × ℚ)) (u lo hi : ℚ) (id : String)
    (hid : id ∈ ["tariffs", "ntbs", "connectivity", "trust", "agriculture",
      "manufacturing", "services", "energy", "technology"]) :
    applyPolicyEffects c [⟨id, 0, lo, hi⟩] sps evs u = applyPolicyEffects c [] sps evs u ∧
    ∀ dflt : ℚ, levValue [⟨id, 0, lo, hi⟩] id dflt = dflt := by
  refine ⟨applyPolicyEffects_congr c sps evs u
    (fun k dflt => levValue_single_zero id k lo hi dflt), fun dflt => ?_⟩
  simp [levValue, List.find?]

/-- Witness for C10 at the concrete lever `tariffs`: the zero-valued decision
changes nothing and its lever value falls back to the default. -/
theorem zero_decision_uses_default_witness :
    ("tariffs" ∈ ["tariffs", "ntbs", "connectivity", "trust", "agriculture",
      "manufacturing", "services", "energy", "technology"]) ∧
    (applyPolicyEffects sampleStats [⟨"tariffs", 0, 0, 50⟩] [] [] (1/2)
        = applyPolicyEffects sampleStats [] [] [] (1/2) ∧
      ∀ dflt : ℚ, levValue [⟨"tariffs", 0, 0, 50⟩] "tariffs" dflt = dflt) :=
  ⟨by simp, zero_decision_uses_default sampleStats [] [] (1/2) 0 50 "tariffs" (by simp)⟩

/-- Helper: the spillover routing never writes `education_spending`. -/
theorem spillFold_education (sps : List PolicySpillover) (s : CountryStats) :
    (sps.foldl applySpilloverEffect s).education_spending = s.education_spending := by
  induction sps generalizing s with
  | nil => rfl
  | cons sp rest ih =>
      rw [List.foldl_cons, ih]
      cases hsp : sp.policyType <;> simp [applySpilloverEffect, hsp]

/-- Helper: the spillover routing never writes `health_expenditure`. -/
theorem spillFold_health (sps : List PolicySpillover) (s : CountryStats) :
    (sps.foldl applySpilloverEffect s).health_expenditure = s.health_expenditure := by
  induction sps generalizing s with
  | nil => rfl
  | cons sp rest ih =>
      rw [List.foldl_cons, ih]
      cases hsp : sp.policyType <;> simp [applySpilloverEffect, hsp]

/-- C3 counterexample: with decisions connectivity = 7, trust = 60 and
education = 5 supplied on `sampleStats`, the returned
`infrastructure_investment` is 7.03 (connectivity plus the cooperation
bonus), not the supplied 7, and `education_spending` stays at 4 (the
education decision is ignored entirely), not the supplied 5. -/
theorem policy_memory_counterexample :
    (applyPolicyEffects sampleStats
        [⟨"connectivity", 7, 0, 10⟩, ⟨"trust", 60, 0, 100⟩, ⟨"education", 5, 0, 10⟩]
        [] [] (1/2)).infrastructure_investment ≠ 7 ∧
    (applyPolicyEffects sampleStats
        [⟨"connectivity", 7, 0, 10⟩, ⟨"trust", 60, 0, 100⟩, ⟨"education", 5, 0, 10⟩]
        [] [] (1/2)).education_spending ≠ 5 := by
  constructor <;>
    simp [applyPolicyEffects, applyPreJitter, applyPolicyDeltas, clampStats, persistDecisions,
      orQ, levValue, tariffPolicy, ntbPolicy, connectivityPolicy, trustPolicy,
      agricultureSpending, manufacturingSpending, servicesSpending, energySpending,
      technologySpending, sampleStats, List.find?] <;>
    norm_num

/-- C3 amended: after `applyPolicyEffects` the five industry spending fields
and `tariff_rate` equal the realized lever value (the supplied decision value
when nonzero, the per-lever default otherwise); the education and health
decisions are ignored (their fields pass through unchanged, absent event
effects); and `infrastructure_investment` is the connectivity decision plus
the cooperation contribution (plus spillover/event contributions), not the
decision value alone. -/
theorem policy_memory_amended (c : CountryStats) (ds : List PolicyDecision)
    (sps : List PolicySpillover) (evs : List (String × ℚ)) (u : ℚ) :
    let r := applyPolicyEffects c ds sps evs u
    r.agriculture_spending = agricultureSpending ds ∧
    r.manufacturing_spending = manufacturingSpending ds ∧
    r.services_spending = servicesSpending ds ∧
    r.energy_spending = energySpending ds ∧
    r.technology_spending = technologySpending ds ∧
    r.tariff_rate = tariffPolicy ds ∧
    (applyPolicyEffects c ds sps [] u).education_spending = c.education_spending ∧
    (applyPolicyEffects c ds sps [] u).health_expenditure = c.health_expenditure ∧
    (applyPolicyEffects c ds [] [] u).infrastructure_investment =
      connectivityPolicy ds + (trustPolicy ds - 50) / 100 * 0.3 := by
  refine ⟨?_, ?_, ?_, ?_, ?_, ?_, ?_, ?_, ?_⟩
  · simp [applyPolicyEffects, persistDecisions]
  · simp [applyPolicyEffects, persistDecisions]
  · simp [applyPolicyEffects, persistDecisions]
  · simp [applyPolicyEffects, persistDecisions]
  · simp [applyPolicyEffects, persistDecisions]
  · simp [applyPolicyEffects, persistDecisions]
  · simp [applyPolicyEffects, applyPreJitter, persistDecisions, clampStats,
      spillFold_education, applyPolicyDeltas]
  · simp [applyPolicyEffects, applyPreJitter, persistDecisions, clampStats,
      spillFold_health, applyPolicyDeltas]
  · simp [applyPolicyEffects, applyPreJitter, persistDecisions, clampStats, applyPolicyDeltas]

/-- Helper: one event-effect step adds to `gdp_growth` exactly when its key
is `gdp_growth`, and to `literacy_rate` exactly when its key is
`literacy_rate`, independently of the rest of the state. -/
theorem applyEventEffect_gdp_literacy (s : CountryStats) (key : String) (v : ℚ) :
    (applyEventEffect s key v).gdp_growth =
      s.gdp_growth + (if key = "gdp_growth" then v else 0) ∧
    (applyEventEffect s key v).literacy_rate =
      s.literacy_rate + (if key = "literacy_rate" then v else 0) := by
  rcases eq_or_ne key "year" with h | h1
  · subst h; simp [applyEventEffect]
  rcases eq_or_ne key "gdp_growth" with h | h2
  · subst h; simp [applyEventEffect]
  rcases eq_or_ne key "unemployment" with h | h3
  · subst h; simp [applyEventEffect]
  rcases eq_or_ne key "literacy_rate" with h | h4
  · subst h; simp [applyEventEffect]
  rcases eq_or_ne key "life_expectancy" with h | h5
  · subst h; simp [applyEventEffect]
  rcases eq_or_ne key "poverty_rate" with h | h6
  · subst h; simp [applyEventEffect]
  rcases eq_or_ne key "co2_emissions" with h | h7
  · subst h; simp [applyEventEffect]
  rcases eq_or_ne key "population" with h | h8
  · subst h; simp [applyEventEffect]
  rcases eq_or_ne key "infant_mortality" with h | h9
  · subst h; simp [applyEventEffect]
  rcases eq_or_ne key "education_spending" with h | h10
  · subst h; simp [applyEventEffect]
  rcases eq_or_ne key "health_expenditure" with h | h11
  · subst h; simp [applyEventEffect]
  rcases eq_or_ne key "infrastructure_investment" with h | h12
  · subst h; simp [applyEventEffect]
  rcases eq_or_ne key "agriculture_spending" with h | h13
  · subst h; simp [applyEventEffect]
  rcases eq_or_ne key "manufacturing_spending" with h | h14
  · subst h; simp [applyEventEffect]
  rcases eq_or_ne key "services_spending" with h | h15
  · subst h; simp [applyEventEffect]
  rcases eq_or_ne key "energy_spending" with h | h16
  · subst h; simp [applyEventEffect]
  rcases eq_or_ne key "technology_spending" with h | h17
  · subst h; simp [applyEventEffect]
  rcases eq_or_ne key "tourism_spending" with h | h18
  · subst h; simp [applyEventEffect]
  rcases eq_or_ne key "environment_spending" with h | h19
  · subst h; simp [applyEventEffect]
  rcases eq_or_ne key "trade_liberalization" with h | h20
  · subst h; simp [applyEventEffect]
  rcases eq_or_ne key "tariff_rate" with h | h21
  · subst h; simp [applyEventEffect]
  rcases eq_or_ne key "agriculture_gdp_percent" with h | h22
  · subst h; simp [applyEventEffect]
  rcases eq_or_ne key "manufacturing_gdp_percent" with h | h23
  · subst h; simp [applyEventEffect]
  rcases eq_or_ne key "services_gdp_percent" with h | h24
  · subst h; simp [applyEventEffect]
  rcases eq_or_ne key "tariffRevenue" with h | h25
  · subst h; simp [applyEventEffect]
  rcases eq_or_ne key "consumerWelfare" with h | h26
  · subst h; simp [applyEventEffect]
  simp [applyEventEffect, h1, h2, h3, h4, h5, h6, h7, h8, h9, h10, h11, h12, h13, h14, h15,
    h16, h17, h18, h19, h20, h21, h22, h23, h24, h25, h26]

/-- Helper: the event-effects loop preserves a constant difference in
`gdp_growth` between two runs over the same effect list. -/
theorem eventFold_gdp_diff (evs : List (String × ℚ)) :
    ∀ (s t : CountryStats) (a : ℚ), s.gdp_growth = t.gdp_growth + a →
    (evs.foldl (fun st kv => applyEventEffect st kv.1 kv.2) s).gdp_growth =
      (evs.foldl (fun st kv => applyEventEffect st kv.1 kv.2) t).gdp_growth + a := by
  induction evs with
  | nil => intro s t a h; simpa using h
  | cons kv rest ih =>
      intro s t a h
      simp only [List.foldl_cons]
      exact ih _ _ a (by
        rw [(applyEventEffect_gdp_literacy s kv.1 kv.2).1,
          (applyEventEffect_gdp_literacy t kv.1 kv.2).1, h]
        ring)

/-- Helper: the event-effects loop preserves a constant difference in
`literacy_rate` between two runs over the same effect list. -/
theorem eventFold_literacy_diff (evs : List (String × ℚ)) :
    ∀ (s t : CountryStats) (a : ℚ), s.literacy_rate = t.literacy_rate + a →
    (evs.foldl (fun st kv => applyEventEffect st kv.1 kv.2) s).literacy_rate =
      (evs.foldl (fun st kv => applyEventEffect st kv.1 kv.2) t).literacy_rate + a := by
  induction evs with
  | nil => intro s t a h; simpa using h
  | cons kv rest ih =>
      intro s t a h
      simp only [List.foldl_cons]
      exact ih _ _ a (by
        rw [(applyEventEffect_gdp_literacy s kv.1 kv.2).2,
          (applyEventEffect_gdp_literacy t kv.1 kv.2).2, h]
        ring)

/-- C7: a single inbound technology spillover adds exactly `0.15 * effect` to
`gdp_growth` and `0.3 * effect` to `literacy_rate` relative to the
no-spillover run with identical other inputs, measured at the pre-clamp,
pre-jitter point of `applyPolicyEffects` (`applyPreJitter`). -/
theorem technology_spillover_adds (c : CountryStats) (ds : List PolicyDecision)
    (evs : List (String × ℚ)) (sp : PolicySpillover)
    (h : sp.policyType = PolicyType.technology) :
    (applyPreJitter c ds [sp] evs).gdp_growth =
      (applyPreJitter c ds [] evs).gdp_growth + sp.effect * 0.15 ∧
    (applyPreJitter c ds [sp] evs).literacy_rate =
      (applyPreJitter c ds [] evs).literacy_rate + sp.effect * 0.3 := by
  simp only [applyPreJitter, List.foldl_cons, List.foldl_nil]
  constructor
  · exact eventFold_gdp_diff evs _ _ _ (by simp [applySpilloverEffect, h])
  · exact eventFold_literacy_diff evs _ _ _ (by simp [applySpilloverEffect, h])

/-- Witness for C7: a technology spillover of effect 0.2 raises the
pre-clamp, pre-jitter `literacy_rate` by exactly 0.06. -/
theorem technology_spillover_adds_witness :
    (applyPreJitter sampleStats []
        [⟨"India", "Bangladesh", PolicyType.technology, 0.2, Magnitude.low, Timeframe.long_term⟩]
        []).literacy_rate =
      (applyPreJitter sampleStats [] [] []).literacy_rate + 0.06 := by
  have h := technology_spillover_adds sampleStats [] []
    ⟨"India", "Bangladesh", PolicyType.technology, 0.2, Magnitude.low, Timeframe.long_term⟩ rfl
  rw [h.2]
  norm_num

/-- Helper: folding the extraction switch over decisions never writes a key
outside `policyChangeIds`, whatever the accumulator. -/
theorem extract_foldl_lookup (k : String) (hk : k ∉ policyChangeIds) (ds : List PolicyDecision) :
    ∀ acc : List (String × ℚ),
      lookupChange (ds.foldl (fun policyChanges d =>
        if d.id ∈ policyChangeIds then (d.id, d.value) :: policyChanges else policyChanges) acc) k
        = lookupChange acc k := by
  induction ds with
  | nil => intro acc; rfl
  | cons d rest ih =>
      intro acc
      simp only [List.foldl_cons]
      rw [ih]
      by_cases hd : d.id ∈ policyChangeIds
      · rw [if_pos hd]
        have hne : (d.id == k) = false := beq_eq_false_iff_ne.mpr (fun he => hk (he ▸ hd))
        simp [lookupChange, List.find?, hne]
      · rw [if_neg hd]

/-- Helper: a key that the extraction switch never writes is absent from the
extracted policy-change map. -/
theorem lookupChange_extract_none (ds : List PolicyDecision) (k : String)
    (hk : k ∉ policyChangeIds) : lookupChange (extractPolicyChanges ds) k = none := by
  rw [extractPolicyChanges, extract_foldl_lookup k hk ds []]
  rfl

/-- Helper: on a policy-change map extracted from decisions, every trade edge
produces no spillovers — the six keys `calculateTradeSpillovers` tests are
never written by the extraction switch. -/
theorem spilloversForEdge_extract_empty (src : String) (ds : List PolicyDecision)
    (t : TradeRelationship) :
    spilloversForEdge src (extractPolicyChanges ds) t = [] := by
  have h1 := lookupChange_extract_none ds "gdp_growth" (by decide)
  have h2 := lookupChange_extract_none ds "infrastructure_investment" (by decide)
  have h3 := lookupChange_extract_none ds "co2_emissions" (by decide)
  have h4 := lookupChange_extract_none ds "manufacturing_investment" (by decide)
  have h5 := lookupChange_extract_none ds "technology_investment" (by decide)
  have h6 := lookupChange_extract_none ds "energy_investment" (by decide)
  simp [spilloversForEdge, h1, h2, h3, h4, h5, h6]

/-- Helper: `calculateTradeSpillovers` on an extracted policy-change map is
empty for every source country and trade matrix. -/
theorem calculateTradeSpillovers_extract_empty (src : String) (ds : List PolicyDecision)
    (matrix : List TradeRelationship) :
    calculateTradeSpillovers src (extractPolicyChanges ds) matrix = [] := by
  rw [calculateTradeSpillovers]
  suffices h : ∀ (l : List TradeRelationship) (acc : List PolicySpillover),
      l.foldl (fun spillovers trade =>
        spillovers ++ spilloversForEdge src (extractPolicyChanges ds) trade) acc = acc by
    exact h _ []
  intro l
  induction l with
  | nil => intro acc; rfl
  | cons t rest ih =>
      intro acc
      rw [List.foldl_cons, spilloversForEdge_extract_empty, List.append_nil]
      exact ih acc

/-- C2: the policy-change keys extracted by `simulateRegionalEffects` are
disjoint from the keys `calculateTradeSpillovers` tests, so for every map of
country states, every map of per-country decisions and every trade matrix
the resulting spillover map has no entries at all. -/
theorem simulateRegionalEffects_no_spillovers (allCountries : List (String × CountryStats))
    (allDecisions : List (String × List PolicyDecision))
    (tradeMatrix : List TradeRelationship) :
    simulateRegionalEffects allCountries allDecisions tradeMatrix = [] := by
  rw [simulateRegionalEffects]
  suffices h : ∀ acc : List (String × List PolicySpillover),
      allCountries.foldl (fun spilloversByCountry entry =>
        let decisions := decisionsFor allDecisions entry.1
        let policyChanges := extractPolicyChanges decisions
        let spillovers := calculateTradeSpillovers entry.1 policyChanges tradeMatrix
        spillovers.foldl pushSpillover spilloversByCountry) acc = acc by
    exact h []
  intro acc
  induction allCountries generalizing acc with
  | nil => rfl
  | cons e rest ih =>
      rw [List.foldl_cons]
      show rest.foldl _ ((calculateTradeSpillovers e.1
        (extractPolicyChanges (decisionsFor allDecisions e.1)) tradeMatrix).foldl
          pushSpillover acc) = acc
      rw [calculateTradeSpillovers_extract_empty, List.foldl_nil]
      exact ih _

/-- Helper: membership in a fold that appends a per-element list comes either
from the accumulator or from one of the elements. -/
theorem mem_foldl_append {α β : Type} (f : β → List α) :
    ∀ (l : List β) (acc : List α) (x : α),
      x ∈ l.foldl (fun a t => a ++ f t) acc → x ∈ acc ∨ ∃ t ∈ l, x ∈ f t := by
  intro l
  induction l with
  | nil => intro acc x h; exact Or.inl h
  | cons b rest ih =>
      intro acc x h
      simp only [List.foldl_cons] at h
      rcases ih _ x h with h' | ⟨t, ht, hx⟩
      · rcases List.mem_append.mp h' with h'' | h''
        · exact Or.inl h''
        · exact Or.inr ⟨b, List.mem_cons_self _ _, h''⟩
      · exact Or.inr ⟨t, List.mem_cons_of_mem _ ht, hx⟩

/-- Helper: on an edge with cooperation 0, every spillover of a
cooperation-scaled kind (`trade_gdp` or `technology`) has effect exactly 0. -/
theorem spilloversForEdge_coop_zero (src : String) (changes : List (String × ℚ))
    (t : TradeRelationship) (h0 : t.cooperation = 0) (sp : PolicySpillover)
    (hsp : sp ∈ spilloversForEdge src changes t)
    (hty : sp.policyType = PolicyType.trade_gdp ∨ sp.policyType = PolicyType.technology) :
    sp.effect = 0 := by
  simp only [spilloversForEdge, List.mem_append] at hsp
  rcases hsp with ((((h | h) | h) | h) | h) | h
  · cases hg : lookupChange changes "gdp_growth" with
    | none => rw [hg] at h; simp at h
    | some v =>
        rw [hg] at h
        by_cases hv : v = 0
        · simp [hv] at h
        · simp [hv] at h
          subst h
          simp [h0]
  · cases hg : lookupChange changes "infrastructure_investment" with
    | none => rw [hg] at h; simp at h
    | some v =>
        rw [hg] at h
        by_cases hv : v = 0
        · simp [hv] at h
        · simp [hv] at h
          subst h
          rcases hty with ht | ht <;> simp at ht
  · cases hg : lookupChange changes "co2_emissions" with
    | none => rw [hg] at h; simp at h
    | some v =>
        rw [hg] at h
        by_cases hv : v = 0
        · simp [hv] at h
        · simp [hv] at h
          subst h
          rcases hty with ht | ht <;> simp at ht
  · cases hg : lookupChange changes "manufacturing_investment" with
    | none => rw [hg] at h; simp at h
    | some v =>
        rw [hg] at h
        by_cases hv : v = 0
        · simp [hv] at h
        · simp [hv] at h
          subst h
          rcases hty with ht | ht <;> simp at ht
  · cases hg : lookupChange changes "technology_investment" with
    | none => rw [hg] at h; simp at h
    | some v =>
        rw [hg] at h
        by_cases hv : v = 0
        · simp [hv] at h
        · simp [hv] at h
          subst h
          simp [h0]
  · cases hg : lookupChange changes "energy_investment" with
    | none => rw [hg] at h; simp at h
    | some v =>
        rw [hg] at h
        by_cases hv : v = 0
        · simp [hv] at h
        · by_cases he : hasEnergyTrade src (if t.tfrom = src then t.tto else t.tfrom)
          · simp [hv, he] at h
            subst h
            rcases hty with ht | ht <;> simp at ht
          · simp [hv, he] at h

/-- C8: for a trade matrix all of whose edges have cooperation 0, every
spillover produced by `calculateTradeSpillovers` whose formula includes the
cooperation factor (the `trade_gdp` and `technology` kinds) has effect
exactly 0. -/
theorem cooperation_zero_effect (src : String) (changes : List (String × ℚ))
    (matrix : List TradeRelationship) (hcoop : ∀ t ∈ matrix, t.cooperation = 0)
    (sp : PolicySpillover) (hsp : sp ∈ calculateTradeSpillovers src changes matrix)
    (hty : sp.policyType = PolicyType.trade_gdp ∨ sp.policyType = PolicyType.technology) :
    sp.effect = 0 := by
  rw [calculateTradeSpillovers] at hsp
  rcases mem_foldl_append _ _ _ _ hsp with h | ⟨t, ht, hsp'⟩
  · simp at h
  · exact spilloversForEdge_coop_zero src changes t
      (hcoop t (List.mem_of_mem_filter ht)) sp hsp' hty

/-- C8 witness on a concrete cooperation-0 edge: the produced `trade_gdp`
spillover has effect exactly 0. -/
theorem cooperation_zero_effect_witness :
    (∀ t ∈ [(⟨"India", "Bangladesh", 50, 10, 0⟩ : TradeRelationship)], t.cooperation = 0) ∧
    (⟨"India", "Bangladesh", PolicyType.trade_gdp, 0, Magnitude.low, Timeframe.short_term⟩ :
      PolicySpillover).effect = 0 := by
  have hmem : (⟨"India", "Bangladesh", PolicyType.trade_gdp, 0, Magnitude.low,
      Timeframe.short_term⟩ : PolicySpillover) ∈
      calculateTradeSpillovers "India" [("gdp_growth", 4)]
        [⟨"India", "Bangladesh", 50, 10, 0⟩] := by
    simp [calculateTradeSpillovers, spilloversForEdge, lookupChange, List.find?,
      hasEnergyTrade, energyTradePairs]
    norm_num
  exact ⟨by simp, cooperation_zero_effect "India" [("gdp_growth", 4)]
    [⟨"India", "Bangladesh", 50, 10, 0⟩] (by simp) _ hmem (Or.inl rfl)⟩

/-- C9 counterexample: on an edge satisfying all documented bounds
(volume 95, tariff 10, cooperation 50) and a policy-change map with
`trade_openness = 100`, `updateTradeMatrix` returns tradeVolume 104.5,
which leaves the documented 0-100 scale. -/
theorem updateTradeMatrix_counterexample :
    ((0:ℚ) ≤ 95 ∧ (95:ℚ) ≤ 100 ∧ (0:ℚ) ≤ 10 ∧ (10:ℚ) ≤ 50 ∧ (0:ℚ) ≤ 50 ∧ (50:ℚ) ≤ 100) ∧
    updateTradeMatrix [⟨"India", "Bangladesh", 95, 10, 50⟩]
      [("India", ⟨some 100, none, none⟩)] =
      [⟨"India", "Bangladesh", 209/2, 8, 50⟩] ∧
    ¬((209 : ℚ)/2 ≤ 100) := by
  refine ⟨by norm_num, ?_, by norm_num⟩
  simp [updateTradeMatrix, changesFor, truthyOpt, List.find?]
  norm_num

/-- C9 amended: `updateTradeMatrix` keeps `tariffRate` in [0,50] and
`cooperation` in [0,100] on every edge of a matrix whose edges satisfy the
documented bounds, and keeps `tradeVolume` nonnegative — but `tradeVolume`
has no upper clamp and can exceed the 0-100 scale. -/
theorem updateTradeMatrix_bounds (matrix : List TradeRelationship)
    (pc : List (String × CountryPolicyChanges))
    (hm : ∀ t ∈ matrix, 0 ≤ t.tradeVolume ∧ t.tradeVolume ≤ 100 ∧ 0 ≤ t.tariffRate ∧
      t.tariffRate ≤ 50 ∧ 0 ≤ t.cooperation ∧ t.cooperation ≤ 100) :
    ∀ t ∈ updateTradeMatrix matrix pc,
      0 ≤ t.tradeVolume ∧ (0 ≤ t.tariffRate ∧ t.tariffRate ≤ 50) ∧
      (0 ≤ t.cooperation ∧ t.cooperation ≤ 100) := by
  intro t ht
  rw [updateTradeMatrix] at ht
  rcases List.mem_map.mp ht with ⟨t0, ht0, rfl⟩
  obtain ⟨-, -, -, -, hc0, hc1⟩ := hm t0 ht0
  refine ⟨le_max_left _ _, ⟨le_max_left _ _, max_le (by norm_num) (min_le_left _ _)⟩, ?_⟩
  dsimp only
  split_ifs with h
  · exact ⟨le_max_left _ _, max_le (by norm_num) (min_le_left _ _)⟩
  · exact ⟨hc0, hc1⟩

/-- Witness for the amended C9 at a concrete matrix and policy-change map. -/
theorem updateTradeMatrix_bounds_witness :
    (⟨"India", "Bangladesh", 209/2, 8, 50⟩ : TradeRelationship) ∈
      updateTradeMatrix [⟨"India", "Bangladesh", 95, 10, 50⟩]
        [("India", ⟨some 100, none, none⟩)] ∧
    ((0:ℚ) ≤ 209/2 ∧ ((0:ℚ) ≤ 8 ∧ (8:ℚ) ≤ 50) ∧ ((0:ℚ) ≤ 50 ∧ (50:ℚ) ≤ 100)) := by
  have heq : updateTradeMatrix [⟨"India", "Bangladesh", 95, 10, 50⟩]
      [("India", ⟨some 100, none, none⟩)] =
      [⟨"India", "Bangladesh", 209/2, 8, 50⟩] := by
    simp [updateTradeMatrix, changesFor, truthyOpt, List.find?]
    norm_num
  have hmem : (⟨"India", "Bangladesh", 209/2, 8, 50⟩ : TradeRelationship) ∈
      updateTradeMatrix [⟨"India", "Bangladesh", 95, 10, 50⟩]
        [("India", ⟨some 100, none, none⟩)] := by
    rw [heq]; exact List.mem_singleton.mpr rfl
  refine ⟨hmem, ?_⟩
  have h := updateTradeMatrix_bounds [⟨"India", "Bangladesh", 95, 10, 50⟩]
    [("India", ⟨some 100, none, none⟩)] (by norm_num) _ hmem
  simpa using h

/-- C4 counterexample: the gate draw 0.7 makes the generator return `[]`
immediately, and the set of draws on which it does so has measure 2/5, not
the claimed 3/5 (the claim has the probabilities swapped). -/
theorem event_gate_counterexample :
    generateRegionalEvents 2024 65 [] (7/10) id (fun _ => 1) = [] ∧
    MeasureTheory.volume gateEmptyDraws ≠ ENNReal.ofReal (3/5) := by
  constructor
  · norm_num [generateRegionalEvents]
  · have hset : gateEmptyDraws = Set.Ioo (3/5 : ℝ) 1 := by
      ext x
      simp only [gateEmptyDraws, Set.mem_setOf_eq, Set.mem_Ico, Set.mem_Ioo]
      norm_num
      constructor
      · rintro ⟨⟨h0, h1⟩, h6⟩; exact ⟨h6, h1⟩
      · rintro ⟨h6, h1⟩; exact ⟨⟨by linarith, h1⟩, h6⟩
    rw [hset, Real.volume_Ioo]
    intro hcontra
    rw [ENNReal.ofReal_eq_ofReal_iff (by norm_num) (by norm_num)] at hcontra
    norm_num at hcontra

/-- C4 amended: the gate returns `[]` immediately exactly on draws above 0.6,
i.e. with probability 0.4; the generator proceeds past the gate with
probability 0.6 (the source comment: only a 60% chance of an event check per
year). -/
theorem event_gate_behavior (year : ℤ) (ci : ℚ) (history : List RegionalEvent)
    (shuffle : List PoolEvent → List PoolEvent) (draws : ℕ → ℚ) (r : ℚ) :
    ((0.6 : ℚ) < r → generateRegionalEvents year ci history r shuffle draws = []) ∧
    MeasureTheory.volume gateEmptyDraws = ENNReal.ofReal (2/5) := by
  constructor
  · intro hr
    rw [generateRegionalEvents, if_pos hr]
  · have hset : gateEmptyDraws = Set.Ioo (3/5 : ℝ) 1 := by
      ext x
      simp only [gateEmptyDraws, Set.mem_setOf_eq, Set.mem_Ico, Set.mem_Ioo]
      norm_num
      constructor
      · rintro ⟨⟨h0, h1⟩, h6⟩; exact ⟨h6, h1⟩
      · rintro ⟨h6, h1⟩; exact ⟨⟨by linarith, h1⟩, h6⟩
    rw [hset, Real.volume_Ioo]
    norm_num

/-- Witness for the amended C4 at the concrete draw 0.7. -/
theorem event_gate_behavior_witness :
    generateRegionalEvents 2024 65 [] (7/10) id (fun _ => 1) = [] :=
  (event_gate_behavior 2024 65 [] id (fun _ => 1) (7/10)).1 (by norm_num)

/-- Helper: the event selected by the trigger walk is an element of the
walked list. -/
theorem selectFirstTriggered_mem (ci : ℚ) :
    ∀ (l : List PoolEvent) (draws : ℕ → ℚ) (e : PoolEvent),
      selectFirstTriggered ci l draws = some e → e ∈ l := by
  intro l
  induction l with
  | nil => intro draws e h; simp [selectFirstTriggered] at h
  | cons a rest ih =>
      intro draws e h
      rw [selectFirstTriggered] at h
      split_ifs at h with hc
      · cases h
        exact List.mem_cons_self _ _
      · exact List.mem_cons_of_mem _ (ih _ e h)

/-- Helper: pool ids determine the uniqueness flag (ids are pairwise distinct
in the catalog). -/
theorem eventPool_id_unique_flag :
    ∀ p ∈ eventPool, ∀ q ∈ eventPool, p.id = q.id → p.unique = q.unique := by decide

/-- Helper: no catalog event carries the synthetic stability id. -/
theorem eventPool_no_stability_id : ∀ p ∈ eventPool, p.id ≠ "no_major_event" := by decide

/-- C6: for every year, cooperation index, history, gate draw, shuffle (any
membership-preserving reordering) and trigger draws, `generateRegionalEvents`
never returns an event whose catalog entry is flagged unique and whose id
already appears in the history: such candidates are filtered out before
shuffling and selection. -/
theorem unique_events_never_recur (year : ℤ) (ci : ℚ) (history : List RegionalEvent)
    (gateDraw : ℚ) (shuffle : List PoolEvent → List PoolEvent) (draws : ℕ → ℚ)
    (hshuffle : ∀ (l : List PoolEvent) (e : PoolEvent), e ∈ shuffle l → e ∈ l)
    (ev : RegionalEvent)
    (hev : ev ∈ generateRegionalEvents year ci history gateDraw shuffle draws)
    (p : PoolEvent) (hp : p ∈ eventPool) (hpid : p.id = ev.id) (hu : p.unique = true) :
    ev.id ∉ history.map (·.id) := by
  rw [generateRegionalEvents] at hev
  by_cases hg : gateDraw > (0.6 : ℚ)
  · rw [if_pos hg] at hev
    simp at hev
  · rw [if_neg hg] at hev
    dsimp only at hev
    cases hsel : selectFirstTriggered ci
        (shuffle (eventPool.filter
          (fun e => !(e.unique && (history.map (·.id)).contains e.id)))) draws with
    | some q =>
        rw [hsel] at hev
        simp only [List.mem_singleton] at hev
        subst hev
        have hq : q ∈ eventPool.filter
            (fun e => !(e.unique && (history.map (·.id)).contains e.id)) :=
          hshuffle _ _ (selectFirstTriggered_mem ci _ draws q hsel)
        have hq2 := List.mem_filter.mp hq
        have hqu : q.unique = true := by
          rw [← eventPool_id_unique_flag p hp q hq2.1 (by simpa using hpid)]
          exact hu
        have hcond := hq2.2
        rw [hqu] at hcond
        simp at hcond
        simpa using hcond
    | none =>
        rw [hsel] at hev
        by_cases hy : year % 3 = 0
        · rw [if_pos hy] at hev
          simp only [List.mem_singleton] at hev
          subst hev
          exact absurd (by simpa using hpid) (eventPool_no_stability_id p hp)
        · rw [if_neg hy] at hev
          simp at hev

/-- Witness for C6: with an empty history and draws selecting the unique
`fdi_boom` event, its id is (vacuously) absent from the history ids. -/
theorem unique_events_never_recur_witness :
    (∀ (l : List PoolEvent) (e : PoolEvent), e ∈ id l → e ∈ l) ∧
    (⟨"fdi_boom", 2024,
      [("gdp_growth", 0.8), ("unemployment", -0.5), ("technology_spending", 0.5)],
      ["India", "Bangladesh"]⟩ : RegionalEvent).id ∉
      (([] : List RegionalEvent).map (·.id)) := by
  have hmem : (⟨"fdi_boom", 2024,
      [("gdp_growth", 0.8), ("unemployment", -0.5), ("technology_spending", 0.5)],
      ["India", "Bangladesh"]⟩ : RegionalEvent) ∈
      generateRegionalEvents 2024 65 [] (1/2) id (fun n => if n = 5 then 0 else 1) := by
    simp [generateRegionalEvents, selectFirstTriggered, effectiveProbability, eventPool]
    norm_num
  exact ⟨fun l e h => h,
    unique_events_never_recur 2024 65 [] (1/2) id (fun n => if n = 5 then 0 else 1)
      (fun l e h => h) _ hmem
      ⟨"fdi_boom", 0.05, false, ["India", "Bangladesh"],
        [("gdp_growth", 0.8), ("unemployment", -0.5), ("technology_spending", 0.5)], true⟩
      (by simp [eventPool]) rfl rfl⟩
